import Mathlib

/-!
Verification of the requirement-negotiation core of the product_review
repository, shallowly embedded in Lean 4.

Embedded sources:
* `models/requirements.py` — `BudgetConstraint`, `UserRequirements`
  (`is_complete`, `get_missing_fields`), `PlannerDecision`;
* `agents/planner.py` — `PlannerAgent.analyze` / `_parse_decision` /
  `_merge_requirements`;
* `agents/collector.py` — `CollectorAgent._is_similar_question` and the
  suggested-question path of `_generate_question`;
* `orchestrator.py` — `WorkflowOrchestrator._gather_requirements`.

Modelling conventions:
* Python floats carrying completeness scores and budget amounts are
  modelled as `Rat` (the code only ever compares and maxes them);
* Python dicts (`Dict[str, Any]`) are association lists
  `List (String × Json)` in insertion order, keys unique;
* Python `list(set(xs))` is modelled by `List.dedup` — the CPython set
  iteration order is unspecified, so only the membership (and the loss
  of duplicates) of the result is meaningful, and theorems about these
  fields are stated in terms of membership;
* `str.strip()` is `String.trim`;
* exceptions are modelled with `Except String`, raising code returns
  `.error`;
* the two external collaborators (LLM backend, user terminal) are
  oracles supplied as functions; the orchestrator model additionally
  returns ghost instrumentation (iteration count, number of extractor
  invocations, a cancellation flag) that the Python code keeps in local
  variables or control flow.
-/

namespace ProductReview

/-- Python `s.lower()` (charwise, which is all the ASCII questions of this
code need). -/
def pyLower (s : String) : String := String.mk (s.data.map Char.toLower)

/-- Python `s.strip()`: drop leading and trailing whitespace. -/
def pyStrip (s : String) : String :=
  String.mk
    (((s.data.dropWhile fun c => c.isWhitespace).reverse.dropWhile
        fun c => c.isWhitespace).reverse)

/-- The float literal `0.7` of the code (scores are modelled as `Rat`). -/
def scoreThreshold : Rat := mkRat 7 10

/-- A parsed JSON value, as handed to `PlannerAgent._parse_decision` by
`LLMClient.structured_output`. -/
inductive Json where
  | null
  | bool (b : Bool)
  | num (q : Rat)
  | str (s : String)
  | arr (elems : List Json)
  | obj (fields : List (String × Json))

/-- Python truthiness of a JSON value (`if req_data.get("budget"):`). -/
def Json.truthy : Json → Bool
  | .null => false
  | .bool b => b
  | .num q => decide (q ≠ 0)
  | .str s => !s.isEmpty
  | .arr l => !l.isEmpty
  | .obj l => !l.isEmpty

/-- Python `d.get(key, default)` on a dict: the stored value when the key
is present (even when the stored value is `None`), the default otherwise;
an `AttributeError` (modelled as `.error`) when the receiver is not a
dict. -/
def Json.getD (j : Json) (key : String) (dflt : Json) : Except String Json :=
  match j with
  | .obj fields => .ok ((((fields.find? (fun p => p.1 == key))).map (·.2)).getD dflt)
  | _ => .error "AttributeError: get on non-dict"

/-- models/requirements.py `BudgetConstraint` (pydantic). -/
structure BudgetConstraint where
  min : Option Rat
  max : Rat
  flexible : Bool
  flexibility_percent : Option Rat
deriving DecidableEq, Repr

/-- Validated construction of a `BudgetConstraint`, as pydantic performs it:
the `validate_max` / `validate_min` field validators raise (here `.error`)
on `max <= 0` or a negative `min`. -/
def BudgetConstraint.make (minV : Option Rat) (maxV : Rat) (flex : Bool) :
    Except String BudgetConstraint :=
  if maxV ≤ 0 then .error "Maximum budget must be positive"
  else
    match minV with
    | some m =>
        if m < 0 then .error "Minimum budget cannot be negative"
        else .ok ⟨some m, maxV, flex, none⟩
    | none => .ok ⟨none, maxV, flex, none⟩

/-- models/requirements.py `UserRequirements` (pydantic), with the same
field defaults. -/
structure UserRequirements where
  product_category : String := ""
  budget : Option BudgetConstraint := none
  use_case : String := ""
  must_have_specs : List (String × Json) := []
  nice_to_have_specs : List (String × Json) := []
  deal_breakers : List String := []
  preferred_brands : List String := []
  excluded_brands : List String := []
  preferred_retailers : List String := []
  priorities : List String := []
  completeness_score : Rat := 0
  raw_input : String := ""

/-- The completeness predicate `UserRequirements.is_complete`. -/
def UserRequirements.is_complete (r : UserRequirements) : Bool :=
  let has_category := !r.product_category.isEmpty && decide (r.product_category.length > 2)
  let has_budget :=
    match r.budget with
    | some b => decide (b.max > 0)
    | none => false
  let has_specs_or_usecase := !r.must_have_specs.isEmpty || !r.use_case.isEmpty
  let has_good_score := decide (r.completeness_score ≥ scoreThreshold)
  has_category && has_budget && has_specs_or_usecase && has_good_score

/-- The companion `UserRequirements.get_missing_fields`.  Note that the category check
here is mere non-emptiness (`if not self.product_category`), while
`is_complete` additionally requires `len(...) > 2`. -/
def UserRequirements.get_missing_fields (r : UserRequirements) : List String :=
  (if r.product_category.isEmpty then ["product_category"] else []) ++
  (if (match r.budget with | none => true | some b => decide (b.max ≤ 0))
      then ["budget"] else []) ++
  (if r.must_have_specs.isEmpty && r.use_case.isEmpty
      then ["specifications_or_use_case"] else [])

/-- models/requirements.py `PlannerDecision`; `status` is a plain string,
pydantic does not validate it against the ready/need_more_info enum. -/
structure PlannerDecision where
  status : String
  missing_fields : List String := []
  requirements : Option UserRequirements := none
  confidence : Rat := 0
  reasoning : String := ""
  suggested_questions : List String := []

/-- Python `UserRequirements(raw_input=...)`: every field at its pydantic default
except the raw transcript (orchestrator.py line 109); this is also the
spec Requirement called "empty-like". -/
def emptyWithRaw (raw : String) : UserRequirements := { raw_input := raw }

/-- Python `{**existing, **new}` on string-keyed dicts: existing keys in
order with the value from `new` where overridden, then fresh keys of `new` in
order. -/
def dictMerge (a b : List (String × Json)) : List (String × Json) :=
  (a.map fun p =>
    match b.find? (fun q => q.1 == p.1) with
    | some q => (p.1, q.2)
    | none => p) ++
  b.filter (fun q => !(a.any (fun p => p.1 == q.1)))

/-- Python `list(set(xs))`: duplicates collapse; the CPython iteration order
over a set is unspecified, so only membership in the result is meaningful
(here: `List.dedup`). -/
def pySetList (l : List String) : List String := l.dedup

/-- Python `new or existing` on strings: `new` when non-empty. -/
def strOrElse (new existing : String) : String :=
  if new.isEmpty then existing else new

/-- agents/planner.py `PlannerAgent._merge_requirements`.  Note that the
`UserRequirements` constructor call passes no `preferred_retailers`, so
that field is reset to its default `[]`. -/
def mergeRequirements (existing new : UserRequirements) : UserRequirements :=
  { product_category := strOrElse new.product_category existing.product_category
    budget :=
      match new.budget with
      | some b => some b
      | none => existing.budget
    use_case := strOrElse new.use_case existing.use_case
    must_have_specs := dictMerge existing.must_have_specs new.must_have_specs
    nice_to_have_specs := dictMerge existing.nice_to_have_specs new.nice_to_have_specs
    deal_breakers := pySetList (existing.deal_breakers ++ new.deal_breakers)
    preferred_brands := pySetList (existing.preferred_brands ++ new.preferred_brands)
    excluded_brands := pySetList (existing.excluded_brands ++ new.excluded_brands)
    preferred_retailers := []
    priorities := if new.priorities.isEmpty then existing.priorities else new.priorities
    completeness_score := max existing.completeness_score new.completeness_score
    raw_input := pyStrip (existing.raw_input ++ "\n" ++ new.raw_input) }

/-! ### Decision Extractor (`agents/planner.py`) -/

/-- An apostrophe, kept out of string literals. -/
def apos : String := String.singleton (Char.ofNat 39)

/-- pydantic reading of a `str` field from a JSON value. -/
def asStr : Json → Except String String
  | .str s => .ok s
  | _ => .error "validation error: str expected"

/-- pydantic reading of a `float` field from a JSON value (a Python bool
is an int, hence float-coercible). -/
def asFloat : Json → Except String Rat
  | .num q => .ok q
  | .bool b => .ok (if b then 1 else 0)
  | _ => .error "validation error: float expected"

/-- pydantic reading of an `Optional[float]` field. -/
def asOptFloat : Json → Except String (Option Rat)
  | .null => .ok none
  | j => (asFloat j).map some

/-- pydantic reading of a `bool` field. -/
def asBool : Json → Except String Bool
  | .bool b => .ok b
  | _ => .error "validation error: bool expected"

/-- pydantic reading of a `List[str]` field. -/
def asStrList : Json → Except String (List String)
  | .arr elems => elems.mapM asStr
  | _ => .error "validation error: list of str expected"

/-- pydantic reading of a `Dict[str, Any]` field. -/
def asDict : Json → Except String (List (String × Json))
  | .obj fields => .ok fields
  | _ => .error "validation error: dict expected"

/-- The body of the `try` block of `PlannerAgent._parse_decision`: all the
field extraction and pydantic validation that can raise.  `result` is the
parsed LLM JSON, `raw_input` the user input echoed into
`UserRequirements.raw_input`. -/
def parseDecisionCore (result : Json) (raw_input : String) :
    Except String PlannerDecision := do
  let req_data ← result.getD "extracted_requirements" (.obj [])
  -- budget = None; if req_data.get("budget") and it is a dict with truthy "max":
  let budgetJ ← req_data.getD "budget" .null
  let budget ←
    if budgetJ.truthy then
      match budgetJ with
      | .obj bfields => do
          let maxJ := (((bfields.find? (fun p => p.1 == "max"))).map (·.2)).getD .null
          if maxJ.truthy then do
            let minJ := (((bfields.find? (fun p => p.1 == "min"))).map (·.2)).getD .null
            let flexJ := (((bfields.find? (fun p => p.1 == "flexible"))).map (·.2)).getD (.bool false)
            let minV ← asOptFloat minJ
            let maxV ← asFloat maxJ
            let flexV ← asBool flexJ
            (BudgetConstraint.make minV maxV flexV).map some
          else pure none
      | _ => pure none
    else pure none
  let cat ← asStr (← req_data.getD "product_category" (.str ""))
  let uc ← asStr (← req_data.getD "use_case" (.str ""))
  let mhs ← asDict (← req_data.getD "must_have_specs" (.obj []))
  let nhs ← asDict (← req_data.getD "nice_to_have_specs" (.obj []))
  let db ← asStrList (← req_data.getD "deal_breakers" (.arr []))
  let pb ← asStrList (← req_data.getD "preferred_brands" (.arr []))
  let eb ← asStrList (← req_data.getD "excluded_brands" (.arr []))
  let score ← asFloat (← result.getD "completeness_score" (.num 0))
  let requirements : UserRequirements :=
    { product_category := cat
      budget := budget
      use_case := uc
      must_have_specs := mhs
      nice_to_have_specs := nhs
      deal_breakers := db
      preferred_brands := pb
      excluded_brands := eb
      completeness_score := score
      raw_input := raw_input }
  let status ← asStr (← result.getD "status" (.str "need_more_info"))
  let mf ← asStrList (← result.getD "missing_fields" (.arr []))
  let conf ← asFloat (← result.getD "completeness_score" (.num 0))
  let reasoning ← asStr (← result.getD "reasoning" (.str ""))
  let sq ← asStrList (← result.getD "suggested_questions" (.arr []))
  pure
    { status := status
      missing_fields := mf
      requirements := some requirements
      confidence := conf
      reasoning := reasoning
      suggested_questions := sq }

/-- The minimal fallback decision `_parse_decision` returns from its
`except` clause. -/
def fallbackDecision : PlannerDecision :=
  { status := "need_more_info"
    missing_fields := ["unknown"]
    requirements := none
    confidence := 0
    reasoning := "Failed to parse requirements"
    suggested_questions :=
      ["Could you provide more details about what you" ++ apos ++ "re looking for?"] }

/-- The total `PlannerAgent._parse_decision`: total — every exception from the field
extraction is caught and replaced by `fallbackDecision`. -/
def parse_decision (result : Json) (raw_input : String) : PlannerDecision :=
  match parseDecisionCore result raw_input with
  | .ok d => d
  | .error _ => fallbackDecision

/-- The extractor `PlannerAgent.analyze`: the outcome of the LLM collaborator is the
`llmResult` argument (`.error` when `structured_output` raises — network,
auth, rate limit, or unparseable-JSON response).  A collaborator error is
re-raised as `RuntimeError("Failed to analyze requirements: ...")`; a
successful JSON result is parsed by the never-failing `parse_decision`. -/
def analyze (llmResult : Except String Json) (user_input : String) :
    Except String PlannerDecision :=
  match llmResult with
  | .error e => .error ("Failed to analyze requirements: " ++ e)
  | .ok result => .ok (parse_decision result user_input)

/-! ### Clarification Selector (`agents/collector.py`) -/

/-- The fixed vocabulary in `CollectorAgent._is_similar_question`. -/
def keyPhrases : List String :=
  ["what type", "which type", "what kind",
   "budget", "price", "cost",
   "use case", "how will you use", "what will you use"]

/-- Python `phrase in q` (substring containment). -/
def containsPhrase (q phrase : String) : Bool :=
  decide (phrase.toList <:+: q.toList)

/-- The check `CollectorAgent._is_similar_question`: true iff some single key
phrase occurs in both lowercased questions. -/
def isSimilarQuestion (q1 q2 : String) : Bool :=
  keyPhrases.any (fun phrase =>
    containsPhrase (pyLower q1) phrase && containsPhrase (pyLower q2) phrase)

/-- The suggested-questions path of `CollectorAgent._generate_question`:
the first suggested question not similar to any previously asked one
(`none` = fall through to the LLM / decision-tree fallback). -/
def selectSuggestedQuestion (suggested asked : List String) : Option String :=
  suggested.find? (fun q => !(asked.any (fun a => isSimilarQuestion q a)))

/-! ### Negotiation Loop (`orchestrator.py`, `_gather_requirements`)

The two collaborators are oracles: `extract k` is the `PlannerDecision`
produced by the `k`-th invocation of `PlannerAgent.analyze` (call `0` is
the initial analysis before the loop; the claims about the loop concern
runs in which every extraction succeeds, the hard-error path of `analyze`
is settled separately), and `answer k` is the raw user response read in
clarification round `k` (rounds are numbered from 1, matching the
`iteration` variable). -/

/-- The bound `max_iterations = 5` in `_gather_requirements`. -/
def maxIterations : Nat := 5

/-- The cancel keywords of orchestrator.py line 136. -/
def cancelKeywords : List String := ["quit", "exit", "cancel"]

/-- Python `not user_response or user_response.lower() in [quit, exit, cancel]`. -/
def isCancelResponse (s : String) : Bool :=
  s.isEmpty || cancelKeywords.contains (pyLower s)

/-- The two collaborators of one `_gather_requirements` run. -/
structure GatherOracle where
  extract : Nat → PlannerDecision
  answer : Nat → String

/-- Outcome of a `_gather_requirements` run.  `result` is the value the
Python function returns to its caller (`none` for the `return None`
paths); the remaining fields are ghost instrumentation: the final value
of the `iteration` variable, the number of `planner.analyze` invocations
performed, and whether the run ended on the user-cancellation `return`. -/
structure GatherResult where
  result : Option UserRequirements
  iterations : Nat
  extractorCalls : Nat
  cancelled : Bool

/-- The final completeness gate after the loop: `return None` (with the
missing-fields diagnostic) when `is_complete` fails, else the
requirements. -/
def finalGate (r : UserRequirements) (iter calls : Nat) : GatherResult :=
  { result := if r.is_complete then some r else none
    iterations := iter
    extractorCalls := calls
    cancelled := false }

/-- The requirements in hand after the two extractor calls of one loop
body pass (Python locals): `planner.update_requirements` (extractor call
`calls`) merges the requirements of its decision into the running ones when
present, then the re-analysis (extractor call `calls + 1`) replaces the
running requirements wholesale when its decision carries some. -/
def roundRequirements (o : GatherOracle) (reqs : UserRequirements) (calls : Nat) :
    UserRequirements :=
  (o.extract (calls + 1)).requirements.getD
    (match (o.extract calls).requirements with
     | some nr => mergeRequirements reqs nr
     | none => reqs)

/-- The `while decision.status == "need_more_info" and iteration < 5`
loop.  One body pass: read the answer of the user (cancel check), run
`planner.update_requirements` (one extractor call, merging its
requirements into the running ones), re-`analyze` (a second extractor
call) and adopt its requirements wholesale when present — both folded
into `roundRequirements` — then apply the forced-completion break.
`fuel` only bounds the recursion: it starts at `maxIterations + 1` and
the guard `iter < maxIterations` fails before fuel can reach 0 (each
pass increments `iter`), so the fuel-0 branch is dead code. -/
def gatherLoopAux (o : GatherOracle) :
    Nat → PlannerDecision → UserRequirements → Nat → Nat → GatherResult
  | 0, _, reqs, iter, calls => finalGate reqs iter calls
  | fuel + 1, dec, reqs, iter, calls =>
    if dec.status = "need_more_info" ∧ iter < maxIterations then
      if isCancelResponse (o.answer (iter + 1)) then
        { result := none, iterations := iter + 1, extractorCalls := calls, cancelled := true }
      else
        if iter + 1 > 1 ∧ (o.extract (calls + 1)).status = "need_more_info" ∧
            (roundRequirements o reqs calls).completeness_score ≥ scoreThreshold then
          finalGate (roundRequirements o reqs calls) (iter + 1) (calls + 2)
        else
          gatherLoopAux o fuel (o.extract (calls + 1)) (roundRequirements o reqs calls)
            (iter + 1) (calls + 2)
    else finalGate reqs iter calls

/-- The controller `WorkflowOrchestrator._gather_requirements`: initial analysis
(extractor call 0), then the clarification loop, then the final gate. -/
def gatherRequirements (o : GatherOracle) (initial_input : String) : GatherResult :=
  let decision := o.extract 0
  let reqs := decision.requirements.getD (emptyWithRaw initial_input)
  gatherLoopAux o (maxIterations + 1) decision reqs 0 1

/-! ### Spec-side definition for the refinement comparison of claim C7 -/

/-- Modelled from the words of the spec (§4.4 / claim C7): the fixed vocabulary
of topic markers partitioned into topic groups — budget/price/cost,
use-case phrasings, product-type phrasings. -/
def specTopicGroups : List (List String) :=
  [["budget", "price", "cost"],
   ["use case", "how will you use", "what will you use"],
   ["what type", "which type", "what kind"]]

/-- Modelled from the words of the spec (claim C7): two questions are similar
iff they both contain a marker from the same topic group. -/
def sameTopicGroupSpec (q1 q2 : String) : Bool :=
  specTopicGroups.any (fun grp =>
    grp.any (fun m => containsPhrase (pyLower q1) m) &&
    grp.any (fun m => containsPhrase (pyLower q2) m))

/-! ### Concrete fixtures used by witnesses and counterexamples -/

/-- A need-more-info extraction whose requirements carry score 0. -/
def needInfoDecision : PlannerDecision :=
  { status := "need_more_info"
    missing_fields := ["budget"]
    requirements := some { raw_input := "gaming laptop" } }

/-- Collaborators that always return `needInfoDecision` and a harmless
user answer: the exhaustion scenario of claim C1. -/
def stubbornOracle : GatherOracle :=
  { extract := fun _ => needInfoDecision, answer := fun _ => "more details" }

/-- Collaborators whose user cancels in the first clarification round. -/
def cancellingOracle : GatherOracle :=
  { extract := fun _ => needInfoDecision, answer := fun _ => "QuIt" }

/-- A valid budget of 100. -/
def budget100 : BudgetConstraint :=
  { min := none, max := 100, flexible := false, flexibility_percent := none }

/-- The boundary Requirement of the spec: category `"TV"` (length 2), valid
budget, a use case, score 0.8. -/
def rTV : UserRequirements :=
  { product_category := "TV"
    budget := some budget100
    use_case := "watching movies"
    completeness_score := mkRat 4 5
    raw_input := "TV" }

/-- The requirement `rTV` with the three-character category `"TVs"`: complete. -/
def rTVs : UserRequirements := { rTV with product_category := "TVs" }

/-- An extraction that declares readiness and returns `rTVs`. -/
def readyDecision : PlannerDecision :=
  { status := "ready", requirements := some rTVs, confidence := mkRat 4 5 }

/-- Collaborators for a run with exactly one clarification round: the
initial extraction needs more info, every later one is ready. -/
def oneRoundOracle : GatherOracle :=
  { extract := fun k => if k < 1 then needInfoDecision else readyDecision
    answer := fun _ => "under 1500 dollars" }

/-- A Requirement with a duplicated deal breaker. -/
def rDup : UserRequirements :=
  { deal_breakers := ["no refurbished", "no refurbished"], raw_input := "x" }

/-- The requirement `rTVs` at score 0.75: complete, yet below the verdict. -/
def rTVs75 : UserRequirements := { rTVs with completeness_score := mkRat 3 4 }

/-- A need-more-info extraction carrying the score-0.75 requirements. -/
def needInfo75 : PlannerDecision :=
  { status := "need_more_info"
    missing_fields := ["budget"]
    requirements := some rTVs75
    confidence := mkRat 3 4 }

/-- Collaborators that always extract `needInfo75`. -/
def forcedOracle : GatherOracle :=
  { extract := fun _ => needInfo75, answer := fun _ => "some details" }

/-- Collaborators whose initial extraction has the non-enum status
`"done"`. -/
def doneOracle : GatherOracle :=
  { extract := fun _ => { status := "done", requirements := some rTVs, confidence := mkRat 4 5 }
    answer := fun _ => "irrelevant" }

/-! ### Helper lemmas about the loop -/

theorem finalGate_result (r : UserRequirements) (i c : Nat) :
    (finalGate r i c).result = if r.is_complete then some r else none := rfl

theorem finalGate_iterations (r : UserRequirements) (i c : Nat) :
    (finalGate r i c).iterations = i := rfl

theorem finalGate_extractorCalls (r : UserRequirements) (i c : Nat) :
    (finalGate r i c).extractorCalls = c := rfl

theorem finalGate_cancelled (r : UserRequirements) (i c : Nat) :
    (finalGate r i c).cancelled = false := rfl

theorem bool_ne_true {b : Bool} (h : b = false) : ¬(b = true) := by simp [h]

/-- Exhausted fuel (dead code in a real run). -/
theorem gatherLoopAux_zero (o : GatherOracle) (dec : PlannerDecision)
    (reqs : UserRequirements) (iter calls : Nat) :
    gatherLoopAux o 0 dec reqs iter calls = finalGate reqs iter calls := rfl

/-- Loop guard fails: straight to the final gate. -/
theorem gatherLoopAux_guard_false (o : GatherOracle) (fuel : Nat) (dec : PlannerDecision)
    (reqs : UserRequirements) (iter calls : Nat)
    (hg : ¬(dec.status = "need_more_info" ∧ iter < maxIterations)) :
    gatherLoopAux o (fuel + 1) dec reqs iter calls = finalGate reqs iter calls := by
  show (if dec.status = "need_more_info" ∧ iter < maxIterations then _ else _) = _
  rw [if_neg hg]

/-- The user cancels: immediate `return None`, no extractor call. -/
theorem gatherLoopAux_cancel (o : GatherOracle) (fuel : Nat) (dec : PlannerDecision)
    (reqs : UserRequirements) (iter calls : Nat)
    (hg : dec.status = "need_more_info" ∧ iter < maxIterations)
    (hc : isCancelResponse (o.answer (iter + 1)) = true) :
    gatherLoopAux o (fuel + 1) dec reqs iter calls =
      { result := none, iterations := iter + 1, extractorCalls := calls, cancelled := true } := by
  show (if dec.status = "need_more_info" ∧ iter < maxIterations then _ else _) = _
  rw [if_pos hg, if_pos hc]

/-- The forced-completion break fires: straight to the final gate on the
requirements of the round. -/
theorem gatherLoopAux_forced (o : GatherOracle) (fuel : Nat) (dec : PlannerDecision)
    (reqs : UserRequirements) (iter calls : Nat)
    (hg : dec.status = "need_more_info" ∧ iter < maxIterations)
    (hc : isCancelResponse (o.answer (iter + 1)) = false)
    (hf : iter + 1 > 1 ∧ (o.extract (calls + 1)).status = "need_more_info" ∧
          (roundRequirements o reqs calls).completeness_score ≥ scoreThreshold) :
    gatherLoopAux o (fuel + 1) dec reqs iter calls =
      finalGate (roundRequirements o reqs calls) (iter + 1) (calls + 2) := by
  show (if dec.status = "need_more_info" ∧ iter < maxIterations then _ else _) = _
  rw [if_pos hg, if_neg (bool_ne_true hc), if_pos hf]

/-- An ordinary loop body pass: two extractor calls, then re-enter. -/
theorem gatherLoopAux_step (o : GatherOracle) (fuel : Nat) (dec : PlannerDecision)
    (reqs : UserRequirements) (iter calls : Nat)
    (hg : dec.status = "need_more_info" ∧ iter < maxIterations)
    (hc : isCancelResponse (o.answer (iter + 1)) = false)
    (hf : ¬(iter + 1 > 1 ∧ (o.extract (calls + 1)).status = "need_more_info" ∧
            (roundRequirements o reqs calls).completeness_score ≥ scoreThreshold)) :
    gatherLoopAux o (fuel + 1) dec reqs iter calls =
      gatherLoopAux o fuel (o.extract (calls + 1)) (roundRequirements o reqs calls)
        (iter + 1) (calls + 2) := by
  show (if dec.status = "need_more_info" ∧ iter < maxIterations then _ else _) = _
  rw [if_pos hg, if_neg (bool_ne_true hc), if_neg hf]

/-- The `iteration` variable never exceeds `max_iterations`. -/
theorem gatherLoopAux_iterations_le (o : GatherOracle) :
    ∀ (fuel : Nat) (dec : PlannerDecision) (reqs : UserRequirements) (iter calls : Nat),
      iter ≤ maxIterations →
      (gatherLoopAux o fuel dec reqs iter calls).iterations ≤ maxIterations := by
  intro fuel
  induction fuel with
  | zero => intro dec reqs iter calls h; exact h
  | succ fuel ih =>
    intro dec reqs iter calls h
    by_cases hg : dec.status = "need_more_info" ∧ iter < maxIterations
    · by_cases hc : isCancelResponse (o.answer (iter + 1)) = true
      · rw [gatherLoopAux_cancel o fuel dec reqs iter calls hg hc]
        exact Nat.succ_le_of_lt hg.2
      · have hc' : isCancelResponse (o.answer (iter + 1)) = false :=
          Bool.eq_false_iff.mpr hc
        by_cases hf : iter + 1 > 1 ∧ (o.extract (calls + 1)).status = "need_more_info" ∧
            (roundRequirements o reqs calls).completeness_score ≥ scoreThreshold
        · rw [gatherLoopAux_forced o fuel dec reqs iter calls hg hc' hf,
            finalGate_iterations]
          exact Nat.succ_le_of_lt hg.2
        · rw [gatherLoopAux_step o fuel dec reqs iter calls hg hc' hf]
          exact ih _ _ _ _ (Nat.succ_le_of_lt hg.2)
    · rw [gatherLoopAux_guard_false o fuel dec reqs iter calls hg, finalGate_iterations]
      exact h

/-- The `iteration` variable never decreases. -/
theorem gatherLoopAux_iterations_ge (o : GatherOracle) :
    ∀ (fuel : Nat) (dec : PlannerDecision) (reqs : UserRequirements) (iter calls : Nat),
      iter ≤ (gatherLoopAux o fuel dec reqs iter calls).iterations := by
  intro fuel
  induction fuel with
  | zero => intro dec reqs iter calls; exact Nat.le_refl _
  | succ fuel ih =>
    intro dec reqs iter calls
    by_cases hg : dec.status = "need_more_info" ∧ iter < maxIterations
    · by_cases hc : isCancelResponse (o.answer (iter + 1)) = true
      · rw [gatherLoopAux_cancel o fuel dec reqs iter calls hg hc]
        exact Nat.le_succ _
      · have hc' : isCancelResponse (o.answer (iter + 1)) = false :=
          Bool.eq_false_iff.mpr hc
        by_cases hf : iter + 1 > 1 ∧ (o.extract (calls + 1)).status = "need_more_info" ∧
            (roundRequirements o reqs calls).completeness_score ≥ scoreThreshold
        · rw [gatherLoopAux_forced o fuel dec reqs iter calls hg hc' hf,
            finalGate_iterations]
          exact Nat.le_succ _
        · rw [gatherLoopAux_step o fuel dec reqs iter calls hg hc' hf]
          exact Nat.le_trans (Nat.le_succ _) (ih _ _ _ _)
    · rw [gatherLoopAux_guard_false o fuel dec reqs iter calls hg, finalGate_iterations]

/-- Exact extractor-call accounting: every clarification round performs
exactly two extractor calls, except the cancellation round, which
performs none. -/
theorem gatherLoopAux_calls (o : GatherOracle) :
    ∀ (fuel : Nat) (dec : PlannerDecision) (reqs : UserRequirements) (iter calls : Nat),
      (gatherLoopAux o fuel dec reqs iter calls).extractorCalls
        + (if (gatherLoopAux o fuel dec reqs iter calls).cancelled then 2 else 0)
        + 2 * iter
        = calls + 2 * (gatherLoopAux o fuel dec reqs iter calls).iterations := by
  intro fuel
  induction fuel with
  | zero =>
    intro dec reqs iter calls
    rw [gatherLoopAux_zero, finalGate_iterations, finalGate_extractorCalls,
      finalGate_cancelled]
    simp
  | succ fuel ih =>
    intro dec reqs iter calls
    by_cases hg : dec.status = "need_more_info" ∧ iter < maxIterations
    · by_cases hc : isCancelResponse (o.answer (iter + 1)) = true
      · rw [gatherLoopAux_cancel o fuel dec reqs iter calls hg hc]
        simp; ring
      · have hc' : isCancelResponse (o.answer (iter + 1)) = false :=
          Bool.eq_false_iff.mpr hc
        by_cases hf : iter + 1 > 1 ∧ (o.extract (calls + 1)).status = "need_more_info" ∧
            (roundRequirements o reqs calls).completeness_score ≥ scoreThreshold
        · rw [gatherLoopAux_forced o fuel dec reqs iter calls hg hc' hf,
            finalGate_iterations, finalGate_extractorCalls, finalGate_cancelled]
          simp; ring
        · rw [gatherLoopAux_step o fuel dec reqs iter calls hg hc' hf]
          have h := ih (o.extract (calls + 1)) (roundRequirements o reqs calls)
            (iter + 1) (calls + 2)
          rcases hcan : (gatherLoopAux o fuel (o.extract (calls + 1))
              (roundRequirements o reqs calls) (iter + 1) (calls + 2)).cancelled
          · rw [hcan] at h; simp at h ⊢; omega
          · rw [hcan] at h; simp at h ⊢; omega
    · rw [gatherLoopAux_guard_false o fuel dec reqs iter calls hg, finalGate_iterations,
        finalGate_extractorCalls, finalGate_cancelled]
      simp

/-- A score-0 Requirement can never pass `is_complete`. -/
theorem is_complete_false_of_score_zero (r : UserRequirements)
    (h : r.completeness_score = 0) : r.is_complete = false := by
  have hs : decide (r.completeness_score ≥ scoreThreshold) = false := by
    rw [h]; decide
  simp [UserRequirements.is_complete, hs]

/-- Merging keeps a zero score at zero. -/
theorem merge_score_zero (a b : UserRequirements)
    (ha : a.completeness_score = 0) (hb : b.completeness_score = 0) :
    (mergeRequirements a b).completeness_score = 0 := by
  show max a.completeness_score b.completeness_score = 0
  rw [ha, hb]; exact max_self 0

/-- Merging a dict with the empty dict is the identity. -/
theorem dictMerge_nil (a : List (String × Json)) : dictMerge a [] = a := by
  unfold dictMerge
  simp

/-- Under collaborators that always report `need_more_info` with score-0
requirements and never cancel, the loop runs its remaining rounds, each
costing two extractor calls, and ends at iteration `maxIterations` with
`None`. -/
theorem gatherLoopAux_exhausts (o : GatherOracle)
    (hstat : ∀ k, (o.extract k).status = "need_more_info")
    (hreq : ∀ k r, (o.extract k).requirements = some r → r.completeness_score = 0)
    (hans : ∀ k, isCancelResponse (o.answer k) = false) :
    ∀ (fuel iter calls : Nat) (dec : PlannerDecision) (reqs : UserRequirements),
      fuel + iter = maxIterations + 1 → iter ≤ maxIterations →
      dec.status = "need_more_info" → reqs.completeness_score = 0 →
      gatherLoopAux o fuel dec reqs iter calls =
        { result := none, iterations := maxIterations,
          extractorCalls := calls + 2 * (maxIterations - iter), cancelled := false } := by
  intro fuel
  induction fuel with
  | zero => intro iter calls dec reqs hfi hle _ _; exfalso; omega
  | succ fuel ih =>
    intro iter calls dec reqs hfi hle hdec hscore
    by_cases hlt : iter < maxIterations
    · have hguard : dec.status = "need_more_info" ∧ iter < maxIterations := ⟨hdec, hlt⟩
      have hround : (roundRequirements o reqs calls).completeness_score = 0 := by
        unfold roundRequirements
        rcases h2 : (o.extract (calls + 1)).requirements with _ | r2
        · rcases h1 : (o.extract calls).requirements with _ | r1
          · simpa [h1] using hscore
          · simp only [h1, Option.getD_none]
            exact merge_score_zero reqs r1 hscore (hreq calls r1 h1)
        · simp only [h2, Option.getD_some]
          exact hreq (calls + 1) r2 h2
      have hnotforced : ¬(iter + 1 > 1 ∧ (o.extract (calls + 1)).status = "need_more_info" ∧
            (roundRequirements o reqs calls).completeness_score ≥ scoreThreshold) := by
        intro hcontra
        have h := hcontra.2.2
        rw [hround] at h
        exact absurd h (by decide)
      rw [gatherLoopAux_step o fuel dec reqs iter calls hguard (hans (iter + 1)) hnotforced]
      rw [ih (iter + 1) (calls + 2) _ _ (by omega) (by omega) (hstat (calls + 1)) hround]
      simp only [GatherResult.mk.injEq]
      refine ⟨trivial, trivial, by omega, trivial⟩
    · have hiter : iter = maxIterations := by omega
      rw [gatherLoopAux_guard_false o fuel dec reqs iter calls (fun h => hlt h.2)]
      have hic : reqs.is_complete = false := is_complete_false_of_score_zero reqs hscore
      simp only [finalGate, hic, Bool.false_eq_true, if_false, GatherResult.mk.injEq]
      refine ⟨trivial, hiter, by omega, trivial⟩

/-! ## Claims -/

/-- C1: the negotiation loop always terminates: it performs at most 5
clarification iterations; and in every run in which each extraction
returns a Decision with status `"need_more_info"` and completeness
score 0.0 (and the user never cancels), it performs exactly 5
iterations, never a 6th, and then ends in failure (`None`, exhaustion)
rather than success. -/
theorem C1_loop_termination_and_exhaustion :
    (∀ (o : GatherOracle) (s : String),
        (gatherRequirements o s).iterations ≤ maxIterations) ∧
    (∀ (o : GatherOracle) (s : String),
        (∀ k, (o.extract k).status = "need_more_info") →
        (∀ k, (o.extract k).confidence = 0) →
        (∀ k r, (o.extract k).requirements = some r → r.completeness_score = 0) →
        (∀ k, isCancelResponse (o.answer k) = false) →
        gatherRequirements o s =
          { result := none, iterations := maxIterations,
            extractorCalls := 1 + 2 * maxIterations, cancelled := false }) := by
  constructor
  · intro o s
    show (gatherLoopAux o (maxIterations + 1) (o.extract 0)
        ((o.extract 0).requirements.getD (emptyWithRaw s)) 0 1).iterations ≤ maxIterations
    exact gatherLoopAux_iterations_le o (maxIterations + 1) (o.extract 0) _ 0 1 (Nat.zero_le _)
  · intro o s hstat _hconf hreq hans
    have hscore0 : ((o.extract 0).requirements.getD (emptyWithRaw s)).completeness_score = 0 := by
      rcases h0 : (o.extract 0).requirements with _ | r0
      · rfl
      · exact hreq 0 r0 h0
    have h := gatherLoopAux_exhausts o hstat hreq hans (maxIterations + 1) 0 1 (o.extract 0)
      ((o.extract 0).requirements.getD (emptyWithRaw s)) (by omega) (Nat.zero_le _)
      (hstat 0) hscore0
    show gatherLoopAux o (maxIterations + 1) (o.extract 0)
        ((o.extract 0).requirements.getD (emptyWithRaw s)) 0 1 = _
    rw [h]
    simp only [GatherResult.mk.injEq]
    refine ⟨trivial, trivial, by omega, trivial⟩

/-- Witness for C1: the stubborn collaborators run exactly 5 rounds and
fail. -/
theorem C1_witness :
    gatherRequirements stubbornOracle "gaming laptop" =
      { result := none, iterations := maxIterations,
        extractorCalls := 1 + 2 * maxIterations, cancelled := false } :=
  C1_loop_termination_and_exhaustion.2 stubbornOracle "gaming laptop"
    (fun _ => rfl) (fun _ => rfl)
    (fun _ r h => by
      simp only [stubbornOracle, needInfoDecision, Option.some.injEq] at h
      rw [← h])
    (fun _ => rfl)

/-- C2: error-handling asymmetry of the Decision Extractor: for every LLM
JSON result, `analyze` succeeds and any exception during field
extraction/validation yields the minimal fallback Decision (status
`"need_more_info"`, missing fields `["unknown"]`, confidence 0,
reasoning `"Failed to parse requirements"`, exactly one generic
suggested question, no requirements); whereas when the LLM collaborator
call itself raises, `analyze` propagates a hard error and does not fall
back. -/
theorem C2_extractor_error_asymmetry :
    (∀ (result : Json) (input : String),
        analyze (Except.ok result) input = Except.ok (parse_decision result input)) ∧
    (∀ (result : Json) (input e : String),
        parseDecisionCore result input = Except.error e →
        parse_decision result input = fallbackDecision) ∧
    (fallbackDecision.status = "need_more_info" ∧
     fallbackDecision.missing_fields = ["unknown"] ∧
     fallbackDecision.confidence = 0 ∧
     fallbackDecision.reasoning = "Failed to parse requirements" ∧
     fallbackDecision.suggested_questions.length = 1 ∧
     fallbackDecision.requirements = none) ∧
    (∀ (err input : String),
        analyze (Except.error err) input =
          Except.error ("Failed to analyze requirements: " ++ err)) := by
  refine ⟨fun _ _ => rfl, ?_, ⟨rfl, rfl, rfl, rfl, rfl, rfl⟩, fun _ _ => rfl⟩
  intro result input e h
  unfold parse_decision
  rw [h]

/-- Witness for C2: a JSON array (not a dict) makes field extraction
raise and fall back; a collaborator error propagates. -/
theorem C2_witness :
    parse_decision (Json.arr []) "gaming laptop" = fallbackDecision ∧
    analyze (Except.error "Claude API error: timeout") "gaming laptop" =
      Except.error "Failed to analyze requirements: Claude API error: timeout" :=
  ⟨C2_extractor_error_asymmetry.2.1 (Json.arr []) "gaming laptop"
      "AttributeError: get on non-dict" rfl,
   C2_extractor_error_asymmetry.2.2.2 "Claude API error: timeout" "gaming laptop"⟩

/-- C3: for every pair of Requirements, the merged completeness score is
exactly the maximum of the two, hence the score of the running requirement
never decreases across merges. -/
theorem C3_merge_score_is_max :
    ∀ r1 r2 : UserRequirements,
      (mergeRequirements r1 r2).completeness_score
          = max r1.completeness_score r2.completeness_score ∧
      r1.completeness_score ≤ (mergeRequirements r1 r2).completeness_score :=
  fun _ _ => ⟨rfl, le_max_left _ _⟩

/-- Counterexample to C4 as stated: for category `"TV"` (non-empty but of
length 2) the category check of the completeness predicate fails, yet
`get_missing_fields` — which tests only emptiness — reports nothing, so
the returned list is not "exactly the subset of the completeness
corresponding checks of the predicate that fail". -/
theorem C4_counterexample :
    rTV.is_complete = false ∧
    rTV.get_missing_fields = [] ∧
    decide (rTV.product_category.length > 2) = false := by
  refine ⟨by decide, rfl, by decide⟩

/-- C4 (amended): `get_missing_fields` returns, in the fixed order
`product_category`, `budget`, `specifications_or_use_case`, exactly the
failing checks among: category **empty** (not the stricter predicate
length > 2 check), budget absent or non-positive, and the combined
specs-or-use-case check as a single label; it never raises (it is a
total function), and it returns the empty list whenever `is_complete`
holds. -/
theorem C4_missing_fields_amended :
    ∀ r : UserRequirements,
      ("product_category" ∈ r.get_missing_fields ↔ r.product_category.isEmpty = true) ∧
      ("budget" ∈ r.get_missing_fields ↔
          (match r.budget with | none => True | some b => b.max ≤ 0)) ∧
      ("specifications_or_use_case" ∈ r.get_missing_fields ↔
          (r.must_have_specs.isEmpty = true ∧ r.use_case.isEmpty = true)) ∧
      List.Sublist r.get_missing_fields
        ["product_category", "budget", "specifications_or_use_case"] ∧
      (r.is_complete = true → r.get_missing_fields = []) := by
  intro r
  have hmatch : ((match r.budget with | none => true | some b => decide (b.max ≤ 0)) = true)
      ↔ (match r.budget with | none => True | some b => b.max ≤ 0) := by
    rcases r.budget with _ | b <;> simp
  unfold UserRequirements.get_missing_fields
  refine ⟨?_, ?_, ?_, ?_, ?_⟩
  · by_cases hA : r.product_category.isEmpty = true <;>
      by_cases hB : (match r.budget with | none => true | some b => decide (b.max ≤ 0)) = true <;>
      by_cases hC : (r.must_have_specs.isEmpty && r.use_case.isEmpty) = true <;>
      simp [hA, hB, hC]
  · rw [← hmatch]
    by_cases hA : r.product_category.isEmpty = true <;>
      by_cases hB : (match r.budget with | none => true | some b => decide (b.max ≤ 0)) = true <;>
      by_cases hC : (r.must_have_specs.isEmpty && r.use_case.isEmpty) = true <;>
      simp [hA, hB, hC]
  · have hand : (r.must_have_specs.isEmpty && r.use_case.isEmpty) = true
        ↔ (r.must_have_specs.isEmpty = true ∧ r.use_case.isEmpty = true) := by
      simp
    rw [← hand]
    by_cases hA : r.product_category.isEmpty = true <;>
      by_cases hB : (match r.budget with | none => true | some b => decide (b.max ≤ 0)) = true <;>
      by_cases hC : (r.must_have_specs.isEmpty && r.use_case.isEmpty) = true <;>
      simp [hA, hB, hC]
  · by_cases hA : r.product_category.isEmpty = true <;>
      by_cases hB : (match r.budget with | none => true | some b => decide (b.max ≤ 0)) = true <;>
      by_cases hC : (r.must_have_specs.isEmpty && r.use_case.isEmpty) = true <;>
      simp [hA, hB, hC]
  · intro hcomp
    have h1 : r.product_category.isEmpty = false := by
      by_cases hA : r.product_category.isEmpty = true
      · simp [UserRequirements.is_complete, hA] at hcomp
      · exact Bool.eq_false_iff.mpr hA
    have h2 : (match r.budget with | none => true | some b => decide (b.max ≤ 0)) = false := by
      rcases hb : r.budget with _ | b
      · simp [UserRequirements.is_complete, hb] at hcomp
      · simp only [UserRequirements.is_complete, hb, Bool.and_eq_true,
          decide_eq_true_eq] at hcomp
        simp [not_le.mpr hcomp.1.1.2]
    have h3 : (r.must_have_specs.isEmpty && r.use_case.isEmpty) = false := by
      simp only [UserRequirements.is_complete, Bool.and_eq_true, Bool.or_eq_true,
        Bool.not_eq_true'] at hcomp
      rcases hcomp.1.2 with hs | hu
      · simp [hs]
      · simp [hu]
    simp [h1, h2, h3]

/-- Witness for C4 (amended): a complete Requirement reports no missing
fields. -/
theorem C4_witness :
    rTVs.is_complete = true ∧ rTVs.get_missing_fields = [] :=
  ⟨by decide, (C4_missing_fields_amended rTVs).2.2.2.2 (by decide)⟩

/-- C5: forced-ready override — in any loop iteration after the first
(`iter ≥ 1`, so the round about to run is the second or later) whose
re-analysis Decision has status `"need_more_info"`, if the running
requirements completeness score is ≥ 0.7 the loop asks no further
question and proceeds directly to the final completeness check,
returning success iff that check passes. -/
theorem C5_forced_ready_override (o : GatherOracle) (fuel : Nat) (dec : PlannerDecision)
    (reqs : UserRequirements) (iter calls : Nat)
    (hstat : dec.status = "need_more_info")
    (hiter1 : 1 ≤ iter) (hiter5 : iter < maxIterations)
    (hans : isCancelResponse (o.answer (iter + 1)) = false)
    (hd2 : (o.extract (calls + 1)).status = "need_more_info")
    (hscore : (roundRequirements o reqs calls).completeness_score ≥ scoreThreshold) :
    gatherLoopAux o (fuel + 1) dec reqs iter calls =
      { result := if (roundRequirements o reqs calls).is_complete
            then some (roundRequirements o reqs calls) else none
        iterations := iter + 1
        extractorCalls := calls + 2
        cancelled := false } :=
  gatherLoopAux_forced o fuel dec reqs iter calls ⟨hstat, hiter5⟩ hans
    ⟨by omega, hd2, hscore⟩

/-- Witness for C5: after round 2 the score-0.75 requirements force
completion and succeed. -/
theorem C5_witness :
    gatherLoopAux forcedOracle (3 + 1) needInfo75 (emptyWithRaw "x") 1 1 =
      { result := some rTVs75, iterations := 2, extractorCalls := 3, cancelled := false } := by
  have h := C5_forced_ready_override forcedOracle 3 needInfo75 (emptyWithRaw "x") 1 1
    rfl (by decide) (by decide) (by decide) rfl (by decide)
  rw [h]
  rfl

/-- Counterexample to C6 as stated: merging with an empty-like
Requirement collapses a duplicated deal breaker (`list(set(...))`), so
the result is not equal to the original in every field other than
`raw_input`. -/
theorem C6_counterexample :
    (mergeRequirements rDup (emptyWithRaw "")).deal_breakers = ["no refurbished"] ∧
    rDup.deal_breakers = ["no refurbished", "no refurbished"] ∧
    ¬ (mergeRequirements rDup (emptyWithRaw "")).deal_breakers = rDup.deal_breakers := by
  refine ⟨by decide, rfl, by decide⟩

/-- C6 (amended): merging a Requirement with an empty-like one (all
fields at their defaults except `raw_input`) is total and preserves
every field except: the three set-union fields are preserved only up to
set membership (duplicates collapse and order is not guaranteed),
`preferred_retailers` is reset to `[]` (the merge constructor omits it),
`completeness_score` is preserved provided it was non-negative, and
`raw_input` becomes the stripped concatenation with the appended
(possibly empty) text. -/
theorem C6_merge_emptylike_amended :
    ∀ (r : UserRequirements) (t : String),
      (mergeRequirements r (emptyWithRaw t)).product_category = r.product_category ∧
      (mergeRequirements r (emptyWithRaw t)).budget = r.budget ∧
      (mergeRequirements r (emptyWithRaw t)).use_case = r.use_case ∧
      (mergeRequirements r (emptyWithRaw t)).must_have_specs = r.must_have_specs ∧
      (mergeRequirements r (emptyWithRaw t)).nice_to_have_specs = r.nice_to_have_specs ∧
      (∀ x, x ∈ (mergeRequirements r (emptyWithRaw t)).deal_breakers ↔
          x ∈ r.deal_breakers) ∧
      (∀ x, x ∈ (mergeRequirements r (emptyWithRaw t)).preferred_brands ↔
          x ∈ r.preferred_brands) ∧
      (∀ x, x ∈ (mergeRequirements r (emptyWithRaw t)).excluded_brands ↔
          x ∈ r.excluded_brands) ∧
      (mergeRequirements r (emptyWithRaw t)).preferred_retailers = [] ∧
      (mergeRequirements r (emptyWithRaw t)).priorities = r.priorities ∧
      (0 ≤ r.completeness_score →
        (mergeRequirements r (emptyWithRaw t)).completeness_score =
          r.completeness_score) ∧
      (mergeRequirements r (emptyWithRaw t)).raw_input =
        pyStrip (r.raw_input ++ "\n" ++ t) := by
  intro r t
  refine ⟨rfl, rfl, rfl, ?_, ?_, ?_, ?_, ?_, rfl, rfl, ?_, rfl⟩
  · exact dictMerge_nil r.must_have_specs
  · exact dictMerge_nil r.nice_to_have_specs
  · intro x
    show x ∈ pySetList (r.deal_breakers ++ []) ↔ _
    simp [pySetList, List.mem_dedup]
  · intro x
    show x ∈ pySetList (r.preferred_brands ++ []) ↔ _
    simp [pySetList, List.mem_dedup]
  · intro x
    show x ∈ pySetList (r.excluded_brands ++ []) ↔ _
    simp [pySetList, List.mem_dedup]
  · intro h
    show max r.completeness_score 0 = r.completeness_score
    exact max_eq_left h

/-- Witness for C6 (amended): a non-negative score survives the merge
untouched. -/
theorem C6_witness :
    (mergeRequirements rTVs (emptyWithRaw "extra")).completeness_score =
        rTVs.completeness_score ∧
    (mergeRequirements rTVs (emptyWithRaw "extra")).product_category =
        rTVs.product_category :=
  ⟨(C6_merge_emptylike_amended rTVs "extra").2.2.2.2.2.2.2.2.2.2.1 (by decide),
   (C6_merge_emptylike_amended rTVs "extra").1⟩

/-- Counterexample to C7 as stated: `"budget"` and `"cost"` are markers of
the same (budget/price/cost) topic group, so under the claimed rule the
two questions are similar; `_is_similar_question` in the code requires one
single phrase to occur in both questions and answers false. -/
theorem C7_counterexample :
    sameTopicGroupSpec "What is your budget?" "How much does it cost?" = true ∧
    isSimilarQuestion "What is your budget?" "How much does it cost?" = false := by
  refine ⟨by decide, by decide⟩

/-- C7 (amended): two questions are similar iff some single key phrase of
the fixed vocabulary occurs in both (lowercased) questions — not "any two
markers of the same topic group"; the concrete selector example of the claim
still holds: with the asked history (the budget question) and suggested
questions `["What is your budget range?", "How will you use it?"]`, the
selector returns the second question. -/
theorem C7_similarity_amended :
    (∀ q1 q2 : String,
        isSimilarQuestion q1 q2 = true ↔
          ∃ phrase ∈ keyPhrases,
            containsPhrase (pyLower q1) phrase = true ∧
            containsPhrase (pyLower q2) phrase = true) ∧
    selectSuggestedQuestion ["What is your budget range?", "How will you use it?"]
        ["What" ++ apos ++ "s your budget?"] = some "How will you use it?" := by
  constructor
  · intro q1 q2
    simp [isSimilarQuestion, List.any_eq_true, Bool.and_eq_true]
  · decide

/-- Counterexample to C8 as stated: at the interface to the caller a cancelled
run and an exhausted (non-converged) run return the very same value
(`None`), so cancellation is not a distinct terminal outcome there. -/
theorem C8_counterexample :
    (gatherRequirements cancellingOracle "a laptop").result = none ∧
    (gatherRequirements stubbornOracle "a laptop").result = none ∧
    (gatherRequirements cancellingOracle "a laptop").result =
      (gatherRequirements stubbornOracle "a laptop").result :=
  ⟨rfl, rfl, rfl⟩

/-- C8 (amended): user cancellation (empty answer or a case-insensitive
cancel keyword) makes the loop return immediately — the extractor is not
invoked on the cancelling input (the call count is unchanged) — but the
value handed to the caller is the same `None` as non-convergence; only
the printed message differs. -/
theorem C8_cancellation_amended :
    ∀ (o : GatherOracle) (fuel : Nat) (dec : PlannerDecision)
      (reqs : UserRequirements) (iter calls : Nat),
      dec.status = "need_more_info" → iter < maxIterations →
      isCancelResponse (o.answer (iter + 1)) = true →
      gatherLoopAux o (fuel + 1) dec reqs iter calls =
        { result := none, iterations := iter + 1,
          extractorCalls := calls, cancelled := true } :=
  fun o fuel dec reqs iter calls hs hi hc =>
    gatherLoopAux_cancel o fuel dec reqs iter calls ⟨hs, hi⟩ hc

/-- Witness for C8 (amended): a `"QuIt"` answer in round 1 ends the run
with `None` and no further extractor call. -/
theorem C8_witness :
    gatherLoopAux cancellingOracle (4 + 1) needInfoDecision (emptyWithRaw "x") 0 1 =
      { result := none, iterations := 1, extractorCalls := 1, cancelled := true } :=
  C8_cancellation_amended cancellingOracle 4 needInfoDecision (emptyWithRaw "x") 0 1
    rfl (by decide) (by decide)

/-- Counterexample to C9 as stated: a run with exactly one clarification
iteration performs 3 extractor calls in total — 1 before the loop and 2
inside the single iteration (`update_requirements` and the re-analysis),
more than the claimed at-most-one network call per iteration. -/
theorem C9_counterexample :
    (gatherRequirements oneRoundOracle "gaming laptop").iterations = 1 ∧
    (gatherRequirements oneRoundOracle "gaming laptop").extractorCalls = 3 :=
  ⟨by decide, by decide⟩

/-- Arithmetic bridge: drop the vacuous `+ 2 * 0` of the loop-entry
instance of the call-count invariant. -/
theorem gatherResultBridge : ∀ (res : GatherResult),
    res.extractorCalls + (if res.cancelled then 2 else 0) + 2 * 0
        = 1 + 2 * res.iterations →
    res.extractorCalls + (if res.cancelled then 2 else 0) = 1 + 2 * res.iterations := by
  rintro ⟨r, i, e, c⟩ h
  cases c <;> simp at h ⊢ <;> omega

/-- C9 (amended): the loop is strictly sequential, and its extractor-call
budget is exact: one call before the loop plus exactly two per
clarification iteration, except that the cancelling iteration performs
none (the collector may add one further LLM call when it falls back to
generated questions, which this count excludes). -/
theorem C9_extractor_calls_amended :
    ∀ (o : GatherOracle) (s : String),
      (gatherRequirements o s).extractorCalls
        + (if (gatherRequirements o s).cancelled then 2 else 0)
        = 1 + 2 * (gatherRequirements o s).iterations := by
  intro o s
  show (gatherLoopAux o (maxIterations + 1) (o.extract 0)
        ((o.extract 0).requirements.getD (emptyWithRaw s)) 0 1).extractorCalls
      + (if (gatherLoopAux o (maxIterations + 1) (o.extract 0)
        ((o.extract 0).requirements.getD (emptyWithRaw s)) 0 1).cancelled then 2 else 0)
      = 1 + 2 * (gatherLoopAux o (maxIterations + 1) (o.extract 0)
        ((o.extract 0).requirements.getD (emptyWithRaw s)) 0 1).iterations
  exact gatherResultBridge _ (gatherLoopAux_calls o (maxIterations + 1) (o.extract 0)
    ((o.extract 0).requirements.getD (emptyWithRaw s)) 0 1)

/-- C10: the Decision `status` field is an arbitrary string (there is
no enum validation), and the loop runs a clarification iteration iff the
status equals the exact string `"need_more_info"`: for any other status
string the loop runs zero iterations and goes straight to the final
completeness check on the current requirements. -/
theorem C10_status_gate :
    ∀ (o : GatherOracle) (s : String),
      ((o.extract 0).status ≠ "need_more_info" →
          gatherRequirements o s =
            finalGate ((o.extract 0).requirements.getD (emptyWithRaw s)) 0 1) ∧
      ((o.extract 0).status = "need_more_info" →
          1 ≤ (gatherRequirements o s).iterations) := by
  intro o s
  constructor
  · intro hne
    show gatherLoopAux o (maxIterations + 1) (o.extract 0)
        ((o.extract 0).requirements.getD (emptyWithRaw s)) 0 1 = _
    exact gatherLoopAux_guard_false o maxIterations (o.extract 0) _ 0 1
      (fun h => hne h.1)
  · intro heq
    show 1 ≤ (gatherLoopAux o (maxIterations + 1) (o.extract 0)
        ((o.extract 0).requirements.getD (emptyWithRaw s)) 0 1).iterations
    by_cases hc : isCancelResponse (o.answer (0 + 1)) = true
    · rw [gatherLoopAux_cancel o maxIterations (o.extract 0) _ 0 1
        ⟨heq, by decide⟩ hc]
    · have hc' : isCancelResponse (o.answer (0 + 1)) = false :=
        Bool.eq_false_iff.mpr hc
      have hf : ¬(0 + 1 > 1 ∧ (o.extract (1 + 1)).status = "need_more_info" ∧
          (roundRequirements o ((o.extract 0).requirements.getD (emptyWithRaw s)) 1
            ).completeness_score ≥ scoreThreshold) :=
        fun hcon => absurd hcon.1 (by omega)
      rw [gatherLoopAux_step o maxIterations (o.extract 0) _ 0 1
        ⟨heq, by decide⟩ hc' hf]
      exact gatherLoopAux_iterations_ge o maxIterations _ _ (0 + 1) (1 + 2)

/-- Witness for C10: an initial status `"done"` skips the loop entirely;
an initial `"need_more_info"` enters it. -/
theorem C10_witness :
    gatherRequirements doneOracle "gaming laptop" = finalGate rTVs 0 1 ∧
    1 ≤ (gatherRequirements stubbornOracle "gaming laptop").iterations :=
  ⟨(C10_status_gate doneOracle "gaming laptop").1 (by decide),
   (C10_status_gate stubbornOracle "gaming laptop").2 rfl⟩

end ProductReview
